import Mathlib

/-!
Verification of the RecruitIQ job-aggregation core: a shallow embedding of
the record validator (`recruitiq/utils/validators.py`), the upsert pipeline
(`db/session.py`), the batch save loop (`cli.py`), the search filter chain
(`search.py`) and the analytics aggregates (`analyze.py`), together with
theorems settling the specification's testable properties.

Modelling conventions:
- Python `str` is Lean `String`; `len`, `.strip()`, `.lower()` and the
  substring test `in` are implemented on the underlying character lists
  (Python's unicode case/space tables are abstracted to the ASCII behaviour
  exercised by the code).
- Python `float` salary values are exact rationals; a salary value that
  `float()` cannot parse is a distinguished constructor.
- A dict field that is absent (or `None`) is `Option.none`; scraper dicts
  never distinguish the two in this code base.
- The database is a list of rows in insertion order plus a surrogate-id
  counter; SQL `NULL` comparison semantics are modelled explicitly at each
  filter.
-/

set_option maxRecDepth 1000000

namespace RecruitIQ

instance {ε α : Type} [DecidableEq ε] [DecidableEq α] : DecidableEq (Except ε α) :=
  fun a b =>
    match a, b with
    | .ok x, .ok y =>
      if h : x = y then isTrue (by rw [h]) else isFalse (by simp [h])
    | .error x, .error y =>
      if h : x = y then isTrue (by rw [h]) else isFalse (by simp [h])
    | .ok _, .error _ => isFalse (by simp)
    | .error _, .ok _ => isFalse (by simp)

/-- Python `str.strip()` (whitespace from both ends), on char lists. -/
def trimChars (l : List Char) : List Char :=
  ((l.dropWhile Char.isWhitespace).reverse.dropWhile Char.isWhitespace).reverse

/-- Python `str.strip()`. -/
def pyStrip (s : String) : String := ⟨trimChars s.data⟩

/-- Python `str.lower()` (ASCII case mapping). -/
def pyLower (s : String) : String := ⟨s.data.map Char.toLower⟩

/-- Python `len` on a string (code points). -/
def strLen (s : String) : Nat := s.data.length

/-- Python substring test `pat in s`, on char lists. -/
def listInfix (pat : List Char) : List Char → Bool
  | [] => pat.isEmpty
  | c :: rest => pat.isPrefixOf (c :: rest) || listInfix pat rest

/-- Python substring test `pat in s`. -/
def strIn (pat s : String) : Bool := listInfix pat.data s.data

/-- Python truthiness of an optional string: present and non-empty. -/
def optStrTruthy : Option String → Bool
  | none => false
  | some s => s != ""

/-- A value found in a salary field of a scraped dict: either a value that
`float()` parses to the rational `q` (a numeric literal or a numeric
string), or a value `float()` raises `ValueError`/`TypeError` on. -/
inductive SalVal where
  | num (q : ℚ)
  | nonNum (s : String)
deriving DecidableEq

/-- True for a value `float()` parses. -/
def SalVal.isNum : SalVal → Bool
  | .num _ => true
  | .nonNum _ => false

/-- The parsed rational of a numeric salary value. -/
def SalVal.toQ : SalVal → Option ℚ
  | .num q => some q
  | .nonNum _ => none

/-- Python truthiness of a salary value (`0` and `""` are falsy). -/
def SalVal.truthy : SalVal → Bool
  | .num q => decide (q ≠ 0)
  | .nonNum s => s != ""

/-- A scraped job dict: the union of the keys read by
`validate_job_data` (`title`, `company_name`, `location`, `description`,
`salary_min`, `salary_max`, `job_url`) and the columns written by the
upsert (`url`, `source_platform`, `job_description`, `salary_currency`,
`employment_type`, `posted_date`). `none` models an absent key.
`posted_date` is an instant in seconds. -/
structure JobData where
  title : Option String := none
  company_name : Option String := none
  location : Option String := none
  description : Option String := none
  job_description : Option String := none
  salary_min : Option SalVal := none
  salary_max : Option SalVal := none
  salary_currency : Option String := none
  employment_type : Option String := none
  job_url : Option String := none
  url : Option String := none
  source_platform : Option String := none
  posted_date : Option Int := none
deriving DecidableEq

/-! URL well-formedness (`validators.py:_is_valid_url`). The function
tests the input against the anchored regex

  `^https?://(domain|localhost|ip)(:\d+)?(/?|[/?]\S+)$`  (IGNORECASE)

with `domain = (?:[A-Z0-9](?:[A-Z0-9-]{0,61}[A-Z0-9])?\.)+[A-Z]{2,6}\.?`
and `ip = \d{1,3}\.\d{1,3}\.\d{1,3}\.\d{1,3}`. Below is a decision
procedure for membership in that regex's language: the input is lowered
(the pattern is case-insensitive and its literals are lowercase), the
scheme is peeled off, and the remaining alternations and unbounded splits
are decided by enumerating split points. -/

/-- Character class `[A-Z0-9]` under IGNORECASE. -/
def alnumChar (c : Char) : Bool := c.isAlpha || c.isDigit

/-- One domain label: `[A-Z0-9](?:[A-Z0-9-]{0,61}[A-Z0-9])?`. -/
def isLabel : List Char → Bool
  | [] => false
  | [c] => alnumChar c
  | c :: rest =>
    alnumChar c && rest.length ≤ 62 &&
    rest.dropLast.all (fun d => alnumChar d || d = '-') &&
    (match rest.getLast? with
     | some d => alnumChar d
     | none => false)

/-- Top-level domain: `[A-Z]{2,6}`. -/
def isTld (l : List Char) : Bool :=
  2 ≤ l.length && l.length ≤ 6 && l.all Char.isAlpha

/-- Split a char list at every `'.'` (labels contain no dots, so this
decomposition of the domain alternation is exact). -/
def splitOnDot : List Char → List (List Char)
  | [] => [[]]
  | c :: rest =>
    let r := splitOnDot rest
    if c = '.' then [] :: r
    else
      match r with
      | [] => [[c]]
      | h :: t => (c :: h) :: t

/-- Domain alternative: `(?:label\.)+[A-Z]{2,6}\.?`. A trailing dot can
only be the optional final one (labels and the TLD are non-empty and
dot-free), so it is stripped first. -/
def isDomain (l : List Char) : Bool :=
  let core := if l.getLast? = some '.' then l.dropLast else l
  match (splitOnDot core).reverse with
  | [] => false
  | tld :: labels => 1 ≤ labels.length && isTld tld && labels.all isLabel

/-- IP alternative: `\d{1,3}\.\d{1,3}\.\d{1,3}\.\d{1,3}`. -/
def isIp (l : List Char) : Bool :=
  let parts := splitOnDot l
  parts.length = 4 &&
  parts.all (fun p => 1 ≤ p.length && p.length ≤ 3 && p.all Char.isDigit)

/-- Host alternation: domain, `localhost`, or dotted-quad IP. -/
def isHost (l : List Char) : Bool :=
  isDomain l || l = "localhost".data || isIp l

/-- Optional port `(?::\d+)?`. -/
def isPort : List Char → Bool
  | [] => true
  | ':' :: ds => 1 ≤ ds.length && ds.all Char.isDigit
  | _ => false

/-- Trailing part `(?:/?|[/?]\S+)$`: empty, a single slash, or a slash or
question mark followed by one or more non-whitespace characters. -/
def isTail : List Char → Bool
  | [] => true
  | [c] => c = '/'
  | c :: rest => (c = '/' || c = '?') && rest.all (fun d => !d.isWhitespace)

/-- Port-then-tail, deciding the split point by enumeration. -/
def isPortTail (l : List Char) : Bool :=
  (List.range (l.length + 1)).any fun j =>
    isPort (l.take j) && isTail (l.drop j)

/-- Scheme `https?://` (on the lowered input). -/
def stripScheme : List Char → Option (List Char)
  | 'h' :: 't' :: 't' :: 'p' :: rest =>
    match rest with
    | 's' :: ':' :: '/' :: '/' :: r => some r
    | ':' :: '/' :: '/' :: r => some r
    | _ => none
  | _ => none

/-- `validators.py:_is_valid_url`: full-string match of the URL regex. -/
def _is_valid_url (s : String) : Bool :=
  match stripScheme (s.data.map Char.toLower) with
  | none => false
  | some rest =>
    (List.range (rest.length + 1)).any fun i =>
      isHost (rest.take i) && isPortTail (rest.drop i)

/-- Salary sub-check of `validate_job_data` (`validators.py:51-65`): a key
present with a non-`None` value must `float()`-parse into `[0, 1000000]`;
this helper is true exactly when the check fails the record. -/
def salaryBad : Option SalVal → Bool
  | none => false
  | some (.num q) => decide (q < 0) || decide (q > 1000000)
  | some (.nonNum _) => true

/-- URL sub-check of `validate_job_data` (`validators.py:67-71`): a truthy
`job_url` whose stripped form is non-empty must match the URL regex; this
helper is true exactly when the check fails the record. -/
def urlBad : Option String → Bool
  | none => false
  | some u =>
    if u == "" then false
    else
      let stripped := pyStrip u
      stripped != "" && !(_is_valid_url stripped)

/-- `validators.py:validate_job_data` (lines 10-73): the early-return
chain of checks, in source order. The `isinstance` guard and the
attribute error on non-string required fields are outside the model
(scraper dicts carry strings in these keys). -/
def validate_job_data (jd : JobData) : Bool :=
  if !(optStrTruthy jd.title) || pyStrip (jd.title.getD "") == "" then false
  else if !(optStrTruthy jd.company_name) || pyStrip (jd.company_name.getD "") == "" then false
  else if strLen (pyStrip (jd.title.getD "")) < 2 || strLen (pyStrip (jd.title.getD "")) > 200 then false
  else if strLen (pyStrip (jd.company_name.getD "")) < 1 || strLen (pyStrip (jd.company_name.getD "")) > 200 then false
  else if optStrTruthy jd.location && strLen (pyStrip (jd.location.getD "")) > 200 then false
  else if optStrTruthy jd.description && strLen (pyStrip (jd.description.getD "")) > 10000 then false
  else if salaryBad jd.salary_min then false
  else if salaryBad jd.salary_max then false
  else if urlBad jd.job_url then false
  else true

/-! The stored table (`recruitiq/db/models.py:JobPosting`) and the upsert
(`db/session.py`). A row is one record of `job_postings`; the
server-assigned timestamp columns (`last_scraped`, `created_at`,
`updated_at`) are not represented — no claim mentions them. The store is
the list of rows in insertion (rowid) order plus the surrogate-id
counter. -/

structure JobRow where
  id : Nat
  title : String := ""
  company_name : String := ""
  location : Option String := none
  posted_date : Option Int := none
  salary_min : Option SalVal := none
  salary_max : Option SalVal := none
  salary_currency : Option String := some "USD"
  employment_type : Option String := none
  job_description : Option String := none
  source_platform : String := ""
  url : String := ""
  is_active : Bool := true
deriving DecidableEq

structure DB where
  rows : List JobRow := []
  nextId : Nat := 1
deriving DecidableEq

/-- The natural-key filter `url == u AND source_platform == sp`
(`db/session.py:50-53`). -/
def rowMatchesKey (u sp : String) (r : JobRow) : Bool :=
  r.url == u && r.source_platform == sp

/-- A supplied dict value overwrites, an absent key leaves the column. -/
def optOverride (new old : Option α) : Option α :=
  match new with
  | some v => some v
  | none => old

/-- The `setattr` loop of the update branch (`db/session.py:57-58`): every
key present in the dict overwrites the corresponding column; `id` and
`is_active` are never keys of a scraped dict. -/
def applyFields (r : JobRow) (jd : JobData) : JobRow :=
  { id := r.id
    title := jd.title.getD r.title
    company_name := jd.company_name.getD r.company_name
    location := optOverride jd.location r.location
    posted_date := optOverride jd.posted_date r.posted_date
    salary_min := optOverride jd.salary_min r.salary_min
    salary_max := optOverride jd.salary_max r.salary_max
    salary_currency := optOverride jd.salary_currency r.salary_currency
    employment_type := optOverride jd.employment_type r.employment_type
    job_description := optOverride jd.job_description r.job_description
    source_platform := jd.source_platform.getD r.source_platform
    url := jd.url.getD r.url
    is_active := r.is_active }

/-- `JobPosting(**job_data)` plus insert (`db/session.py:17-37`): a fresh
surrogate id, the dict's values, and the column defaults
`salary_currency = "USD"` and `is_active = true` when unset. (A dict
missing a `NOT NULL` column would fail the insert; every record the
claims exercise supplies them.) -/
def mkRow (newId : Nat) (jd : JobData) : JobRow :=
  { id := newId
    title := jd.title.getD ""
    company_name := jd.company_name.getD ""
    location := jd.location
    posted_date := jd.posted_date
    salary_min := jd.salary_min
    salary_max := jd.salary_max
    salary_currency := some (jd.salary_currency.getD "USD")
    employment_type := jd.employment_type
    job_description := jd.job_description
    source_platform := jd.source_platform.getD ""
    url := jd.url.getD ""
    is_active := true }

/-- Replace the first row matching the key with its updated form; the
`.first()` row is the one the `setattr` loop mutates in place. -/
def updateFirst (u sp : String) (jd : JobData) : List JobRow → List JobRow
  | [] => []
  | r :: rs =>
    if rowMatchesKey u sp r then applyFields r jd :: rs
    else r :: updateFirst u sp jd rs

/-- `db/session.py:update_or_create_job_posting` (lines 39-64): look up
the first row whose `(url, source_platform)` equals the dict's, overwrite
it field-by-field if found, insert a fresh row otherwise; `none` models
the `KeyError` raised when the dict lacks `url` or `source_platform`. -/
def update_or_create_job_posting (jd : JobData) (db : DB) : Option (JobRow × DB) :=
  match jd.url, jd.source_platform with
  | some u, some sp =>
    match db.rows.find? (rowMatchesKey u sp) with
    | some r =>
      some (applyFields r jd, { db with rows := updateFirst u sp jd db.rows })
    | none =>
      let r := mkRow db.nextId jd
      some (r, { rows := db.rows ++ [r], nextId := db.nextId + 1 })
  | _, _ => none

/-- Number of stored rows carrying a given natural key. -/
def keyCount (u sp : String) (db : DB) : Nat :=
  db.rows.countP (rowMatchesKey u sp)

/-- The table's `UniqueConstraint('url', 'source_platform')`
(`models.py:27`): at most one row per natural key. -/
def DB.wf (db : DB) : Prop := ∀ u sp, keyCount u sp db ≤ 1

/-- One iteration of the save loop (`cli.py:527-535`): skip an invalid
dict; try the upsert; on success increment the count; an exception inside
the upsert (the `Bool` flag simulates a persistence error at commit,
leaving the store unchanged, and a dict without `url` or
`source_platform` raises `KeyError`) is caught and the loop continues. -/
def saveStep (acc : Nat × DB) (item : JobData × Bool) : Nat × DB :=
  if validate_job_data item.1 then
    if item.2 then acc
    else
      match update_or_create_job_posting item.1 acc.2 with
      | some (_, d) => (acc.1 + 1, d)
      | none => acc
  else acc

/-- `cli.py:_save_jobs_to_db` (lines 518-542): run the save loop over the
batch and return the count of successfully saved records. -/
def _save_jobs_to_db (batch : List (JobData × Bool)) (db : DB) : Nat × DB :=
  batch.foldl saveStep (0, db)

/-- A batch item is counted as saved exactly when it is valid, hits no
simulated persistence error, and its dict carries both natural-key
fields. -/
def savedOk (x : JobData × Bool) : Bool :=
  validate_job_data x.1 && !x.2 && x.1.url.isSome && x.1.source_platform.isSome

/-! Analytics (`analyze.py`). Salary statistics, keyword demand, and the
summary aggregate, over the same row type. -/

/-- Floor of a rational, computed on the numerator and denominator. -/
def qFloor (q : ℚ) : ℤ := Int.fdiv q.num q.den

/-- Python `round(x, 2)`: nearest multiple of `1/100`, ties to even (the
binary-float representation step is abstracted to exact rationals). -/
def roundHalfEven (x : ℚ) : ℤ :=
  let f := qFloor x
  let r := x - (f : ℚ)
  if r < 1/2 then f
  else if 1/2 < r then f + 1
  else if f % 2 = 0 then f else f + 1

/-- Python `round(x, 2)`. -/
def round2 (q : ℚ) : ℚ := (roundHalfEven (q * 100) : ℚ) / 100

structure SalaryStats where
  average_salary : ℚ
  median_salary : ℚ
  min_salary : ℚ
  max_salary : ℚ
  jobs_with_salary : Nat
  salary_ranges : Nat
deriving DecidableEq

/-- The `jobs_with_salary` query (`analyze.py:124-127`): active rows with
non-`NULL` `salary_min`. -/
def jobsWithSalary (rows : List JobRow) : List JobRow :=
  rows.filter (fun r => r.is_active && r.salary_min.isSome)

/-- The `salaries` list built by the loop (`analyze.py:136-138`): the
per-row `if job.salary_min:` truthiness drops zero (and empty-string)
values. -/
def rawSalaries (rows : List JobRow) : List SalVal :=
  (jobsWithSalary rows).filterMap (fun r =>
    match r.salary_min with
    | some v => if v.truthy then some v else none
    | none => none)

/-- The number of `salary_ranges` appended by the loop
(`analyze.py:139-140`). -/
def salaryRangesCount (rows : List JobRow) : Nat :=
  (jobsWithSalary rows).countP (fun r =>
    match r.salary_min, r.salary_max with
    | some v, some m => v.truthy && m.truthy && decide (m ≠ v)
    | _, _ => false)

/-- The numeric values of the salary sample. -/
def numericSalaries (rows : List JobRow) : List ℚ :=
  (rawSalaries rows).filterMap SalVal.toQ

/-- `analyze.py:_calculate_salary_stats` (lines 120-160): mean, min, max,
and the median `sorted(salaries)[len(salaries) // 2]`, each rounded to
two decimals. A sample mixing strings and numbers makes Python's
`sum`/`min`/`sorted` raise `TypeError`, caught by the surrounding
`except` into the error result, so the happy path requires every sampled
value numeric. -/
def _calculate_salary_stats (rows : List JobRow) : Except String SalaryStats :=
  if (jobsWithSalary rows).isEmpty then .error "No salary data available"
  else if (rawSalaries rows).all SalVal.isNum then
    match numericSalaries rows with
    | [] => .error "No valid salary data found"
    | h :: t =>
      .ok { average_salary := round2 ((h :: t).foldl (· + ·) 0 / ((h :: t).length : ℚ))
            median_salary :=
              round2 ((List.insertionSort (fun a b : ℚ => a ≤ b) (h :: t)).getD
                ((h :: t).length / 2) 0)
            min_salary := round2 (t.foldl min h)
            max_salary := round2 (t.foldl max h)
            jobs_with_salary := (jobsWithSalary rows).length
            salary_ranges := salaryRangesCount rows }
  else .error "Error calculating salary stats: unorderable mixed types"

/-- The fixed skill vocabulary (`analyze.py:214-220`). -/
def tech_skills : List String :=
  ["python", "javascript", "java", "react", "node.js", "sql",
   "aws", "docker", "kubernetes", "git", "linux", "typescript",
   "postgresql", "mongodb", "redis", "elasticsearch", "kafka",
   "microservices", "rest api", "graphql", "machine learning",
   "data science", "devops", "ci/cd", "agile", "scrum"]

/-- `Counter` increment `skill_counts[skill] += 1`. -/
def bump (f : String → Nat) (k : String) : String → Nat :=
  fun x => if x == k then f x + 1 else f x

/-- One iteration of the inner loop (`analyze.py:226-228`): increment the
skill's count when it occurs, lowered, in the lowered description. -/
def skillStep (desc : String) (cs : String → Nat) (skill : String) : String → Nat :=
  if strIn (pyLower skill) (pyLower desc) then bump cs skill else cs

/-- The two nested counting loops (`analyze.py:222-228`) over the fetched
descriptions, starting from an empty `Counter`. -/
def skillCounter (descs : List String) : String → Nat :=
  descs.foldl (fun counts desc => tech_skills.foldl (skillStep desc) counts)
    (fun _ => 0)

structure SkillsAnalysis where
  skill_counts : String → Nat
  total_jobs_analyzed : Nat
  skills_searched : Nat

/-- The fetched descriptions (`analyze.py:205-208`): active rows with
non-`NULL` `job_description`. -/
def activeDescriptions (rows : List JobRow) : List String :=
  rows.filterMap (fun r => if r.is_active then r.job_description else none)

/-- `analyze.py:get_skills_analysis` (lines 201-242): error when no
descriptions; otherwise the skill counter (the returned `top_skills` is
`most_common(15)` of this counter — the claims concern the counter
itself). -/
def get_skills_analysis (rows : List JobRow) : Except String SkillsAnalysis :=
  if (activeDescriptions rows).isEmpty then .error "No job description data available"
  else
    .ok { skill_counts := skillCounter (activeDescriptions rows)
          total_jobs_analyzed := (activeDescriptions rows).length
          skills_searched := tech_skills.length }

/-! Search (`search.py:JobSearcher.search_jobs`, lines 20-109). -/

structure SearchParams where
  title : Option String := none
  location : Option String := none
  company : Option String := none
  platform : Option String := none
  employment_type : Option String := none
  min_salary : Option ℚ := none
  max_salary : Option ℚ := none
  keywords : Option String := none
  days_ago : Option Int := none
deriving DecidableEq

/-- SQL `col ILIKE '%pat%'` on a non-nullable text column (the pattern is
interpolated from the parameter; the claims use patterns without `%`/`_`
wildcards, for which ILIKE is case-insensitive substring match). -/
def ilikeStr (pat s : String) : Bool := strIn (pyLower pat) (pyLower s)

/-- SQL `col ILIKE '%pat%'` on a nullable column: `NULL` yields `NULL`,
excluding the row. -/
def ilikeOpt (pat : String) : Option String → Bool
  | none => false
  | some s => ilikeStr pat s

/-- SQL `stored >= x` on the REAL-affinity salary column: `NULL` excludes
the row; a TEXT value (an unparsable salary stored raw) sorts after every
number in SQLite's cross-type order. -/
def salGe (v : Option SalVal) (x : ℚ) : Bool :=
  match v with
  | none => false
  | some (.num q) => decide (x ≤ q)
  | some (.nonNum _) => true

/-- SQL `stored <= x` on the salary column (same `NULL`/TEXT rules). -/
def salLe (v : Option SalVal) (x : ℚ) : Bool :=
  match v with
  | none => false
  | some (.num q) => decide (q ≤ x)
  | some (.nonNum _) => false

/-- Python truthiness of an optional number (`0` is falsy). -/
def pyTruthyQ : Option ℚ → Bool
  | none => false
  | some q => decide (q ≠ 0)

/-- Python truthiness of an optional integer (`0` is falsy). -/
def pyTruthyInt : Option Int → Bool
  | none => false
  | some n => decide (n ≠ 0)

/-- SQL `posted_date >= cutoff`: `NULL` excludes the row. Instants are in
seconds; `timedelta(days=n)` is `n * 86400`. -/
def postedGe (d : Option Int) (cutoff : Int) : Bool :=
  match d with
  | none => false
  | some t => decide (cutoff ≤ t)

/-- Comparison key for `ORDER BY posted_date DESC`: SQLite orders `NULL`
before every instant, so `NULL`-dated rows come last in descending
order. -/
def postedLe : Option Int → Option Int → Bool
  | none, _ => true
  | some _, none => false
  | some a, some b => decide (a ≤ b)

/-- The conditional filter chain of `search_jobs` (`search.py:52-95`),
applied in source order; each `if param:` is Python truthiness, so an
absent, empty-string, or zero parameter adds no filter. -/
def search_filtered (p : SearchParams) (now : Int) (rows : List JobRow) : List JobRow :=
  let q0 := rows.filter (fun r => r.is_active)
  let q1 := if optStrTruthy p.title then
      q0.filter (fun r => ilikeStr (p.title.getD "") r.title) else q0
  let q2 := if optStrTruthy p.location then
      q1.filter (fun r => ilikeOpt (p.location.getD "") r.location) else q1
  let q3 := if optStrTruthy p.company then
      q2.filter (fun r => ilikeStr (p.company.getD "") r.company_name) else q2
  let q4 := if optStrTruthy p.platform then
      q3.filter (fun r => ilikeStr (p.platform.getD "") r.source_platform) else q3
  let q5 := if optStrTruthy p.employment_type then
      q4.filter (fun r => ilikeOpt (p.employment_type.getD "") r.employment_type) else q4
  let q6 := if pyTruthyQ p.min_salary then
      q5.filter (fun r =>
        salGe r.salary_min (p.min_salary.getD 0) || salGe r.salary_max (p.min_salary.getD 0))
    else q5
  let q7 := if pyTruthyQ p.max_salary then
      q6.filter (fun r =>
        salLe r.salary_min (p.max_salary.getD 0) && r.salary_min.isSome)
    else q6
  let q8 := if optStrTruthy p.keywords then
      q7.filter (fun r =>
        ilikeOpt (p.keywords.getD "") r.job_description || ilikeStr (p.keywords.getD "") r.title)
    else q7
  if pyTruthyInt p.days_ago then
    q8.filter (fun r => postedGe r.posted_date (now - p.days_ago.getD 0 * 86400))
  else q8

/-- `search.py:search_jobs` body (lines 52-103): the filter chain, then
`ORDER BY posted_date DESC` and `LIMIT`. -/
def search_jobs (p : SearchParams) (now : Int) (limit : Nat) (rows : List JobRow) : List JobRow :=
  (List.insertionSort (fun r1 r2 => postedLe r2.posted_date r1.posted_date = true)
    (search_filtered p now rows)).take limit

/-- `search.py:search_jobs` including its `try`/`except` (lines 51-109):
the query runs against a session whose fetch may fail; on any exception
the method prints the error and returns the empty list. -/
def search_jobs_total (fetch : Except String (List JobRow)) (p : SearchParams)
    (now : Int) (limit : Nat) : List JobRow :=
  match fetch with
  | .ok rows => search_jobs p now limit rows
  | .error _ => []

/-- Group-by count over a key column, first-appearance order (grouping is
exact; SQL leaves tie order among equal counts unspecified, modelled here
as stable first-appearance order). -/
def groupCounts (keys : List String) : List (String × Nat) :=
  keys.foldl
    (fun acc k =>
      if acc.any (fun kv => kv.1 == k) then
        acc.map (fun kv => if kv.1 == k then (kv.1, kv.2 + 1) else kv)
      else acc ++ [(k, 1)])
    []

/-- `ORDER BY count DESC` over group-by results. -/
def topByCount (l : List (String × Nat)) : List (String × Nat) :=
  List.insertionSort (fun a b => b.2 ≤ a.2) l

structure SummaryStats where
  total_jobs : Nat
  top_titles : List (String × Nat)
  top_locations : List (String × Nat)
  top_companies : List (String × Nat)
  platform_distribution : List (String × Nat)
  employment_types : List (String × Nat)
  salary_stats : Except String SalaryStats
  recent_jobs_7_days : Nat

/-- `analyze.py:generate_summary_stats` (lines 23-118): the aggregate
bundle over active rows, with its two error-shaped returns — an exception
during the queries yields the `"Error generating statistics: ..."` result
(lines 115-116), and an empty active table yields the `"No job data
available..."` result (lines 29-30). -/
def generate_summary_stats (fetch : Except String (List JobRow)) (now : Int) :
    Except String SummaryStats :=
  match fetch with
  | .error e => .error ("Error generating statistics: " ++ e)
  | .ok rows =>
    let active := rows.filter (fun r => r.is_active)
    if active.isEmpty then
      .error "No job data available. Run 'recruitiq scrape all' first."
    else
      .ok { total_jobs := active.length
            top_titles := (topByCount (groupCounts (active.map (fun r => r.title)))).take 10
            top_locations :=
              (topByCount (groupCounts (active.filterMap (fun r => r.location)))).take 10
            top_companies :=
              (topByCount (groupCounts (active.map (fun r => r.company_name)))).take 10
            platform_distribution :=
              topByCount (groupCounts (active.map (fun r => r.source_platform)))
            employment_types :=
              topByCount (groupCounts (active.filterMap (fun r => r.employment_type)))
            salary_stats := _calculate_salary_stats rows
            recent_jobs_7_days :=
              rows.countP (fun r => r.is_active && postedGe r.posted_date (now - 7 * 86400)) }

/-! Concrete records used to instantiate the theorems. -/

/-- The spec's §8 scenario record. -/
def scn1 : JobData :=
  { title := some "DevOps Engineer", company_name := some "Acme",
    url := some "http://x.com/1", source_platform := some "Indeed",
    salary_min := some (.num 100000), salary_max := some (.num 100000) }

/-- A re-scrape of `scn1` under the same key with a different title and
`salary_min`. -/
def scn2 : JobData :=
  { scn1 with title := some "Senior DevOps Engineer", salary_min := some (.num 110000) }

/-- The store after upserting `scn1` into an empty store. -/
def scnDb1 : DB := { rows := [mkRow 1 scn1], nextId := 2 }

/-- The row after re-upserting `scn2` over it. -/
def scnRow2 : JobRow := applyFields (mkRow 1 scn1) scn2

/-- The store after the second upsert. -/
def scnDb2 : DB := { rows := [scnRow2], nextId := 2 }

/-- A batch of five scraped dicts: record 2 fails validation (title of
length 1) and record 3 hits a simulated persistence error. -/
def batch5 : List (JobData × Bool) :=
  [({ title := some "Data Engineer", company_name := some "A",
      url := some "u1", source_platform := some "P" }, false),
   ({ title := some "X", company_name := some "B",
      url := some "u2", source_platform := some "P" }, false),
   ({ title := some "Backend Engineer", company_name := some "C",
      url := some "u3", source_platform := some "P" }, true),
   ({ title := some "Frontend Engineer", company_name := some "D",
      url := some "u4", source_platform := some "P" }, false),
   ({ title := some "SRE", company_name := some "E",
      url := some "u5", source_platform := some "P" }, false)]

/-- A stored row with the given id and `salary_min`. -/
def salRow (i : Nat) (s : ℚ) : JobRow :=
  { id := i, title := "T", company_name := "C", url := toString i,
    source_platform := "P", salary_min := some (.num s) }

/-- The spec's §8 median sample, as stored rows. -/
def medianRows : List JobRow :=
  [salRow 1 50000, salRow 2 70000, salRow 3 90000, salRow 4 120000]

/-- A stored row whose description mentions "python" three times. -/
def pythonThriceRow : JobRow :=
  { id := 1, title := "T", company_name := "C", url := "u", source_platform := "P",
    job_description := some "We use Python. python rocks. PYTHON!" }

/-- The analysis record `get_skills_analysis` produces on that row. -/
def pythonThriceAnalysis : SkillsAnalysis :=
  { skill_counts := skillCounter (activeDescriptions [pythonThriceRow])
    total_jobs_analyzed := (activeDescriptions [pythonThriceRow]).length
    skills_searched := tech_skills.length }

/-- The spec's §8 filter-conjunction record pair. -/
def pythonNycRow : JobRow :=
  { id := 1, title := "Python Developer", company_name := "A", url := "u1",
    source_platform := "P", location := some "NYC" }

def javaNycRow : JobRow :=
  { id := 2, title := "Java Developer", company_name := "B", url := "u2",
    source_platform := "P", location := some "NYC" }

/-- A record passing every validation check, with `salary_min` at the
upper boundary. -/
def boundaryOk : JobData :=
  { title := some "AB", company_name := some "Acme",
    salary_min := some (.num 1000000), salary_max := some (.num 1000000) }

/-- The same record with `salary_min` just above the boundary. -/
def boundaryHigh : JobData :=
  { boundaryOk with salary_min := some (.num 1000001) }

/-- The same record with a length-1 title. -/
def boundaryShortTitle : JobData :=
  { boundaryOk with title := some "A" }

/-- A record with a malformed `url` value but no `job_url` key. -/
def malformedUrlRec : JobData :=
  { title := some "AB", company_name := some "Acme",
    url := some "not a url at all !!!", job_url := none }

/-! Helper lemmas. -/

theorem optOverride_override (o x : Option α) :
    optOverride o (optOverride o x) = optOverride o x := by
  cases o <;> rfl

theorem optOverride_getD (o : Option α) (d : α) :
    optOverride o (some (o.getD d)) = some (o.getD d) := by
  cases o <;> rfl

theorem optOverride_self (o : Option α) : optOverride o o = o := by
  cases o <;> rfl

theorem getD_getD (o : Option α) (a : α) : o.getD (o.getD a) = o.getD a := by
  cases o <;> rfl

/-- Re-applying the same dict to an already-updated row changes nothing. -/
theorem applyFields_applyFields (r : JobRow) (jd : JobData) :
    applyFields (applyFields r jd) jd = applyFields r jd := by
  simp [applyFields, optOverride_override, getD_getD]

/-- Applying the dict to the row freshly built from it changes nothing. -/
theorem applyFields_mkRow (newId : Nat) (jd : JobData) :
    applyFields (mkRow newId jd) jd = mkRow newId jd := by
  simp [applyFields, mkRow, optOverride_self, optOverride_getD, getD_getD]

/-- An updated row keeps the natural key written in the dict. -/
theorem rowMatchesKey_applyFields (r : JobRow) (jd : JobData) (u sp : String)
    (hu : jd.url = some u) (hs : jd.source_platform = some sp) :
    rowMatchesKey u sp (applyFields r jd) = true := by
  simp [rowMatchesKey, applyFields, hu, hs]

/-- A freshly built row carries the natural key written in the dict. -/
theorem rowMatchesKey_mkRow (newId : Nat) (jd : JobData) (u sp : String)
    (hu : jd.url = some u) (hs : jd.source_platform = some sp) :
    rowMatchesKey u sp (mkRow newId jd) = true := by
  simp [rowMatchesKey, mkRow, hu, hs]

/-- `updateFirst` rewrites the row `.first()` returned and preserves the
key multiplicity, position of the first match, and length. -/
theorem updateFirst_spec (u sp : String) (jd : JobData)
    (hu : jd.url = some u) (hs : jd.source_platform = some sp) :
    ∀ (rows : List JobRow) (r : JobRow),
      rows.find? (rowMatchesKey u sp) = some r →
      (updateFirst u sp jd rows).find? (rowMatchesKey u sp) = some (applyFields r jd) ∧
      (updateFirst u sp jd rows).countP (rowMatchesKey u sp)
        = rows.countP (rowMatchesKey u sp) ∧
      (updateFirst u sp jd rows).length = rows.length := by
  intro rows
  induction rows with
  | nil => intro r h; simp at h
  | cons a t ih =>
    intro r h
    by_cases ha : rowMatchesKey u sp a = true
    · rw [List.find?_cons_of_pos _ ha] at h
      injection h with h; subst h
      refine ⟨?_, ?_, ?_⟩
      · simp only [updateFirst, if_pos ha]
        exact List.find?_cons_of_pos _ (rowMatchesKey_applyFields a jd u sp hu hs)
      · simp [updateFirst, if_pos ha, List.countP_cons,
          rowMatchesKey_applyFields a jd u sp hu hs, ha]
      · simp [updateFirst, if_pos ha]
    · rw [List.find?_cons_of_neg _ ha] at h
      obtain ⟨h1, h2, h3⟩ := ih r h
      refine ⟨?_, ?_, ?_⟩
      · simpa [updateFirst, if_neg ha, List.find?_cons_of_neg _ ha] using h1
      · simp [updateFirst, if_neg ha, List.countP_cons, h2]
      · simp [updateFirst, if_neg ha, h3]

/-- When the first matching row absorbs the dict without changing,
`updateFirst` is the identity. -/
theorem updateFirst_eq_self (u sp : String) (jd : JobData) :
    ∀ (rows : List JobRow) (r : JobRow),
      rows.find? (rowMatchesKey u sp) = some r →
      applyFields r jd = r →
      updateFirst u sp jd rows = rows := by
  intro rows
  induction rows with
  | nil => intro r h; simp at h
  | cons a t ih =>
    intro r h hfix
    by_cases ha : rowMatchesKey u sp a = true
    · rw [List.find?_cons_of_pos _ ha] at h
      injection h with h; subst h
      simp [updateFirst, if_pos ha, hfix]
    · rw [List.find?_cons_of_neg _ ha] at h
      simp [updateFirst, if_neg ha, ih r h hfix]

/-- In a list with at most one key match, every match is the `.first()`
one. -/
theorem match_unique (u sp : String) :
    ∀ (rows : List JobRow) (r : JobRow),
      rows.countP (rowMatchesKey u sp) ≤ 1 →
      rows.find? (rowMatchesKey u sp) = some r →
      ∀ x ∈ rows, rowMatchesKey u sp x = true → x = r := by
  intro rows
  induction rows with
  | nil => intro r _ h; simp at h
  | cons a t ih =>
    intro r hc h x hx hkx
    by_cases ha : rowMatchesKey u sp a = true
    · rw [List.find?_cons_of_pos _ ha] at h
      injection h with h; subst h
      rcases List.mem_cons.mp hx with rfl | hx
      · rfl
      · exfalso
        rw [List.countP_cons, if_pos ha] at hc
        have ht : t.countP (rowMatchesKey u sp) = 0 := by omega
        have := List.countP_eq_zero.mp ht x hx
        exact this hkx
    · rw [List.find?_cons_of_neg _ ha] at h
      rcases List.mem_cons.mp hx with rfl | hx
      · exact absurd hkx ha
      · rw [List.countP_cons, if_neg ha] at hc
        exact ih r (by omega) h x hx hkx

/-- After a successful upsert, the store holds exactly one row for the
dict's natural key and `.first()` on that key returns the row the call
returned. -/
theorem upsert_post (db : DB) (jd : JobData) (u sp : String) (r1 : JobRow) (db1 : DB)
    (hwf : db.wf) (hu : jd.url = some u) (hs : jd.source_platform = some sp)
    (hcall : update_or_create_job_posting jd db = some (r1, db1)) :
    db1.rows.find? (rowMatchesKey u sp) = some r1 ∧ keyCount u sp db1 = 1 := by
  unfold update_or_create_job_posting at hcall
  rw [hu, hs] at hcall
  cases hfind : db.rows.find? (rowMatchesKey u sp) with
  | some r =>
    simp only [hfind] at hcall
    injection hcall with hcall
    injection hcall with hr hdb
    subst hr; subst hdb
    obtain ⟨h1, h2, _⟩ := updateFirst_spec u sp jd hu hs db.rows r hfind
    refine ⟨h1, ?_⟩
    have hmem := List.mem_of_find?_eq_some hfind
    have hkey := List.find?_some hfind
    have hpos : 1 ≤ db.rows.countP (rowMatchesKey u sp) :=
      List.countP_pos_iff.mpr ⟨r, hmem, hkey⟩
    have : db.rows.countP (rowMatchesKey u sp) = 1 :=
      le_antisymm (hwf u sp) hpos
    simpa [keyCount, h2] using this
  | none =>
    simp only [hfind] at hcall
    injection hcall with hcall
    injection hcall with hr hdb
    subst hr; subst hdb
    have hzero : db.rows.countP (rowMatchesKey u sp) = 0 :=
      List.countP_eq_zero.mpr (fun x hx hkx =>
        (List.find?_eq_none.mp hfind x hx) hkx)
    constructor
    · rw [List.find?_append]
      rw [hfind]
      simp [List.find?_cons_of_pos _ (rowMatchesKey_mkRow db.nextId jd u sp hu hs)]
    · simp [keyCount, List.countP_append, hzero, List.countP_cons,
        rowMatchesKey_mkRow db.nextId jd u sp hu hs]

/-- Reduction of a successful lookup-and-update call. -/
theorem upsert_unfold_update (jd : JobData) (db : DB) (u sp : String) (r : JobRow)
    (hu : jd.url = some u) (hs : jd.source_platform = some sp)
    (hfind : db.rows.find? (rowMatchesKey u sp) = some r) :
    update_or_create_job_posting jd db
      = some (applyFields r jd, { db with rows := updateFirst u sp jd db.rows }) := by
  unfold update_or_create_job_posting
  rw [hu, hs]
  simp only [hfind]

/-- The row a successful upsert returns absorbs the dict: re-applying the
dict's fields to it changes nothing. -/
theorem upsert_row_absorbs (db : DB) (jd : JobData) (u sp : String) (r1 : JobRow) (db1 : DB)
    (hu : jd.url = some u) (hs : jd.source_platform = some sp)
    (hcall : update_or_create_job_posting jd db = some (r1, db1)) :
    applyFields r1 jd = r1 := by
  unfold update_or_create_job_posting at hcall
  rw [hu, hs] at hcall
  cases hfind : db.rows.find? (rowMatchesKey u sp) with
  | some r =>
    simp only [hfind] at hcall
    injection hcall with hcall
    injection hcall with hr _
    subst hr
    exact applyFields_applyFields r jd
  | none =>
    simp only [hfind] at hcall
    injection hcall with hcall
    injection hcall with hr _
    subst hr
    exact applyFields_mkRow db.nextId jd

/-- C1. Two successive upserts of dicts sharing the same
`(url, source_platform)` natural key (the second with title `t2`) leave
exactly one stored row for that key: it is the row the second call
returns, its `title` and every other field the second dict supplies equal
the second dict's values, its `id` is the id the first call returned, and
the second call adds no row. The store is assumed to satisfy the table's
unique constraint on the key. -/
theorem upsert_dedup_last_write_wins
    (db : DB) (i1 i2 : JobData) (u sp t1 t2 : String)
    (r1 r2 : JobRow) (db1 db2 : DB)
    (hwf : db.wf)
    (hu1 : i1.url = some u) (hs1 : i1.source_platform = some sp)
    (hu2 : i2.url = some u) (hs2 : i2.source_platform = some sp)
    (ht1 : i1.title = some t1) (ht2 : i2.title = some t2)
    (hne : t1 ≠ t2)
    (hc1 : update_or_create_job_posting i1 db = some (r1, db1))
    (hc2 : update_or_create_job_posting i2 db1 = some (r2, db2)) :
    keyCount u sp db2 = 1 ∧
    r2 ∈ db2.rows ∧ rowMatchesKey u sp r2 = true ∧
    (∀ x ∈ db2.rows, rowMatchesKey u sp x = true → x = r2) ∧
    r2.title = t2 ∧ r2.id = r1.id ∧
    db2.rows.length = db1.rows.length ∧
    r2.url = u ∧ r2.source_platform = sp ∧
    (∀ c, i2.company_name = some c → r2.company_name = c) ∧
    (∀ v, i2.location = some v → r2.location = some v) ∧
    (∀ v, i2.salary_min = some v → r2.salary_min = some v) ∧
    (∀ v, i2.salary_max = some v → r2.salary_max = some v) ∧
    (∀ v, i2.salary_currency = some v → r2.salary_currency = some v) ∧
    (∀ v, i2.employment_type = some v → r2.employment_type = some v) ∧
    (∀ v, i2.job_description = some v → r2.job_description = some v) ∧
    (∀ v, i2.posted_date = some v → r2.posted_date = some v) := by
  obtain ⟨hfind1, hcount1⟩ := upsert_post db i1 u sp r1 db1 hwf hu1 hs1 hc1
  rw [upsert_unfold_update i2 db1 u sp r1 hu2 hs2 hfind1] at hc2
  injection hc2 with hc2
  injection hc2 with hr2 hdb2
  subst hr2; subst hdb2
  obtain ⟨hfind2, hcount2, hlen2⟩ := updateFirst_spec u sp i2 hu2 hs2 db1.rows r1 hfind1
  have hcount2' : keyCount u sp { db1 with rows := updateFirst u sp i2 db1.rows } = 1 := by
    simpa [keyCount, hcount2] using hcount1
  refine ⟨hcount2', List.mem_of_find?_eq_some hfind2, List.find?_some hfind2,
    ?_, ?_, ?_, hlen2, ?_, ?_, ?_, ?_, ?_, ?_, ?_, ?_, ?_, ?_⟩
  · exact match_unique u sp _ _ (le_of_eq hcount2') hfind2
  · simp [applyFields, ht2]
  · simp [applyFields]
  · simp [applyFields, hu2]
  · simp [applyFields, hs2]
  · intro c hc; simp [applyFields, hc]
  · intro v hv; simp [applyFields, hv, optOverride]
  · intro v hv; simp [applyFields, hv, optOverride]
  · intro v hv; simp [applyFields, hv, optOverride]
  · intro v hv; simp [applyFields, hv, optOverride]
  · intro v hv; simp [applyFields, hv, optOverride]
  · intro v hv; simp [applyFields, hv, optOverride]
  · intro v hv; simp [applyFields, hv, optOverride]

/-- Witness for C1: the spec's §8 scenario, run concretely. -/
theorem upsert_dedup_last_write_wins_witness :
    keyCount "http://x.com/1" "Indeed" scnDb2 = 1 ∧
    scnRow2.title = "Senior DevOps Engineer" ∧
    scnRow2.id = (mkRow 1 scn1).id ∧
    scnRow2.salary_min = some (.num 110000) := by
  have h := upsert_dedup_last_write_wins {} scn1 scn2 "http://x.com/1" "Indeed"
    "DevOps Engineer" "Senior DevOps Engineer" (mkRow 1 scn1) scnRow2 scnDb1 scnDb2
    (fun u sp => by simp [keyCount])
    rfl rfl rfl rfl rfl rfl (by decide) rfl rfl
  obtain ⟨hcount, _, _, _, htitle, hid, _, _, _, _, _, hsal, _⟩ := h
  exact ⟨hcount, htitle, hid, hsal (.num 110000) rfl⟩

/-- C2. Upserting the same dict twice is idempotent: the second call
returns the same row and leaves the store of the first call unchanged;
one row holds the dict's key, and every field the dict supplies is stored
with the dict's value. The store is assumed to satisfy the table's unique
constraint on the key. -/
theorem upsert_idempotent
    (db : DB) (jd : JobData) (u sp : String) (r1 : JobRow) (db1 : DB)
    (hwf : db.wf)
    (hu : jd.url = some u) (hs : jd.source_platform = some sp)
    (hc1 : update_or_create_job_posting jd db = some (r1, db1)) :
    update_or_create_job_posting jd db1 = some (r1, db1) ∧
    keyCount u sp db1 = 1 ∧
    r1.url = u ∧ r1.source_platform = sp ∧
    (∀ t, jd.title = some t → r1.title = t) ∧
    (∀ c, jd.company_name = some c → r1.company_name = c) ∧
    (∀ v, jd.location = some v → r1.location = some v) ∧
    (∀ v, jd.salary_min = some v → r1.salary_min = some v) ∧
    (∀ v, jd.salary_max = some v → r1.salary_max = some v) ∧
    (∀ v, jd.salary_currency = some v → r1.salary_currency = some v) ∧
    (∀ v, jd.employment_type = some v → r1.employment_type = some v) ∧
    (∀ v, jd.job_description = some v → r1.job_description = some v) := by
  obtain ⟨hfind1, hcount1⟩ := upsert_post db jd u sp r1 db1 hwf hu hs hc1
  have habs : applyFields r1 jd = r1 := upsert_row_absorbs db jd u sp r1 db1 hu hs hc1
  refine ⟨?_, hcount1, ?_, ?_, ?_, ?_, ?_, ?_, ?_, ?_, ?_, ?_⟩
  · rw [upsert_unfold_update jd db1 u sp r1 hu hs hfind1, habs,
      updateFirst_eq_self u sp jd db1.rows r1 hfind1 habs]
  · rw [← habs]; simp [applyFields, hu]
  · rw [← habs]; simp [applyFields, hs]
  · intro t ht; rw [← habs]; simp [applyFields, ht]
  · intro c hc; rw [← habs]; simp [applyFields, hc]
  · intro v hv; rw [← habs]; simp [applyFields, hv, optOverride]
  · intro v hv; rw [← habs]; simp [applyFields, hv, optOverride]
  · intro v hv; rw [← habs]; simp [applyFields, hv, optOverride]
  · intro v hv; rw [← habs]; simp [applyFields, hv, optOverride]
  · intro v hv; rw [← habs]; simp [applyFields, hv, optOverride]
  · intro v hv; rw [← habs]; simp [applyFields, hv, optOverride]

/-- Witness for C2: upserting the scenario record twice, concretely. -/
theorem upsert_idempotent_witness :
    update_or_create_job_posting scn1 scnDb1 = some (mkRow 1 scn1, scnDb1) ∧
    keyCount "http://x.com/1" "Indeed" scnDb1 = 1 ∧
    (mkRow 1 scn1).title = "DevOps Engineer" := by
  have h := upsert_idempotent {} scn1 "http://x.com/1" "Indeed" (mkRow 1 scn1) scnDb1
    (fun u sp => by simp [keyCount]) rfl rfl rfl
  exact ⟨h.1, h.2.1, h.2.2.2.2.1 "DevOps Engineer" rfl⟩

/-- An upsert succeeds exactly when the dict carries both key fields. -/
theorem upsert_some_of_keys (jd : JobData) (db : DB) (u sp : String)
    (hu : jd.url = some u) (hs : jd.source_platform = some sp) :
    ∃ rd, update_or_create_job_posting jd db = some rd := by
  unfold update_or_create_job_posting
  rw [hu, hs]
  cases hfind : db.rows.find? (rowMatchesKey u sp) with
  | some r =>
    exact ⟨(applyFields r jd, { db with rows := updateFirst u sp jd db.rows }),
      by simp only [hfind]⟩
  | none =>
    exact ⟨(mkRow db.nextId jd,
      { rows := db.rows ++ [mkRow db.nextId jd], nextId := db.nextId + 1 }),
      by simp only [hfind]⟩

/-- The save loop's count, with the accumulator generalized. -/
theorem saveStep_foldl_count :
    ∀ (batch : List (JobData × Bool)) (acc : Nat × DB),
      (batch.foldl saveStep acc).1 = acc.1 + batch.countP savedOk := by
  intro batch
  induction batch with
  | nil => intro acc; simp
  | cons x t ih =>
    intro acc
    rw [List.foldl_cons, ih, List.countP_cons]
    by_cases hv : validate_job_data x.1 = true
    · cases hx2 : x.2 with
      | true =>
        have hok : savedOk x = false := by simp [savedOk, hx2]
        simp [saveStep, hv, hx2, hok]
      | false =>
        cases hu : x.1.url with
        | none =>
          have hok : savedOk x = false := by simp [savedOk, hu]
          have hup : update_or_create_job_posting x.1 acc.2 = none := by
            unfold update_or_create_job_posting
            rw [hu]
          simp [saveStep, hv, hx2, hup, hok]
        | some u =>
          cases hs : x.1.source_platform with
          | none =>
            have hok : savedOk x = false := by simp [savedOk, hs]
            have hup : update_or_create_job_posting x.1 acc.2 = none := by
              unfold update_or_create_job_posting
              rw [hu, hs]
            simp [saveStep, hv, hx2, hup, hok]
          | some sp =>
            have hok : savedOk x = true := by simp [savedOk, hv, hx2, hu, hs]
            obtain ⟨⟨r, d⟩, hup⟩ := upsert_some_of_keys x.1 acc.2 u sp hu hs
            simp only [saveStep, hv, if_true, hx2, Bool.false_eq_true, if_false, hup, hok]
            omega
    · have hok : savedOk x = false := by simp [savedOk, hv]
      simp [saveStep, hv, hok]

/-- C4. The batch save is best-effort: a validation failure or a
per-record persistence error skips only that record, and the returned
count is exactly the number of records that were valid and persisted. On
the concrete batch of five with one validation failure and one simulated
persistence error, the count is 3. -/
theorem batch_save_best_effort :
    (∀ (batch : List (JobData × Bool)) (db : DB),
      (_save_jobs_to_db batch db).1 = batch.countP savedOk) ∧
    batch5.length = 5 ∧
    batch5.countP (fun x => !(validate_job_data x.1)) = 1 ∧
    batch5.countP (fun x => x.2) = 1 ∧
    (_save_jobs_to_db batch5 {}).1 = 3 := by
  refine ⟨?_, by decide, by decide, by decide, by decide⟩
  intro batch db
  unfold _save_jobs_to_db
  rw [saveStep_foldl_count]
  simp

/-- A non-empty string has positive length. -/
theorem one_le_strLen {s : String} (h : s ≠ "") : 1 ≤ strLen s := by
  cases s with
  | mk data =>
    cases data with
    | nil => exact absurd rfl h
    | cons c cs => simp [strLen]

/-- `validate_job_data` accepts exactly when all nine checks pass. -/
theorem validate_eq_true_iff (jd : JobData) :
    validate_job_data jd = true ↔
      ((!(optStrTruthy jd.title) || pyStrip (jd.title.getD "") == "") = false ∧
       (!(optStrTruthy jd.company_name) || pyStrip (jd.company_name.getD "") == "") = false ∧
       (decide (strLen (pyStrip (jd.title.getD "")) < 2)
         || decide (strLen (pyStrip (jd.title.getD "")) > 200)) = false ∧
       (decide (strLen (pyStrip (jd.company_name.getD "")) < 1)
         || decide (strLen (pyStrip (jd.company_name.getD "")) > 200)) = false ∧
       (optStrTruthy jd.location
         && decide (strLen (pyStrip (jd.location.getD "")) > 200)) = false ∧
       (optStrTruthy jd.description
         && decide (strLen (pyStrip (jd.description.getD "")) > 10000)) = false ∧
       salaryBad jd.salary_min = false ∧
       salaryBad jd.salary_max = false ∧
       urlBad jd.job_url = false) := by
  constructor
  · intro h
    unfold validate_job_data at h
    repeat' split at h
    all_goals simp_all
  · intro ⟨h1, h2, h3, h4, h5, h6, h7, h8, h9⟩
    unfold validate_job_data
    simp only [h1, h2, h3, h4, h5, h6, h7, h8, h9]
    simp

/-- All-checks acceptance, packaged for reuse. -/
theorem validate_accepts (jd : JobData)
    (htt : optStrTruthy jd.title = true)
    (ht1 : pyStrip (jd.title.getD "") ≠ "")
    (ht2 : 2 ≤ strLen (pyStrip (jd.title.getD "")))
    (ht3 : strLen (pyStrip (jd.title.getD "")) ≤ 200)
    (hct : optStrTruthy jd.company_name = true)
    (hc1 : pyStrip (jd.company_name.getD "") ≠ "")
    (hc2 : strLen (pyStrip (jd.company_name.getD "")) ≤ 200)
    (hl : optStrTruthy jd.location = true → strLen (pyStrip (jd.location.getD "")) ≤ 200)
    (hd : optStrTruthy jd.description = true → strLen (pyStrip (jd.description.getD "")) ≤ 10000)
    (hs1 : salaryBad jd.salary_min = false)
    (hs2 : salaryBad jd.salary_max = false)
    (hu : urlBad jd.job_url = false) :
    validate_job_data jd = true := by
  refine (validate_eq_true_iff jd).mpr ⟨?_, ?_, ?_, ?_, ?_, ?_, hs1, hs2, hu⟩
  · simp [htt, ht1]
  · simp [hct, hc1]
  · have h2 : ¬ (strLen (pyStrip (jd.title.getD "")) < 2) := by omega
    have h200 : ¬ (strLen (pyStrip (jd.title.getD "")) > 200) := by omega
    simp [h2, h200]
  · have h1 : ¬ (strLen (pyStrip (jd.company_name.getD "")) < 1) := by
      have := one_le_strLen hc1
      omega
    have h200 : ¬ (strLen (pyStrip (jd.company_name.getD "")) > 200) := by omega
    simp [h1, h200]
  · cases hLoc : optStrTruthy jd.location with
    | false => simp
    | true =>
      have := hl hLoc
      have hn : ¬ (strLen (pyStrip (jd.location.getD "")) > 200) := by omega
      simp [hn]
  · cases hDesc : optStrTruthy jd.description with
    | false => simp
    | true =>
      have := hd hDesc
      have hn : ¬ (strLen (pyStrip (jd.description.getD "")) > 10000) := by omega
      simp [hn]

/-- C3. Validation boundaries: a record with a trimmed title of length 1
(or above 200) is rejected whatever its other fields; a numeric salary
bound outside `[0, 1000000]` or an unparsable salary value rejects the
record; a trimmed title of length 2 is accepted when every other check
passes (in particular `salary_min = 1000000` is accepted, and the
rejection part instantiates to `salary_min = 1000001`). Acceptance is the
single boolean verdict of `validate_job_data` — no partial acceptance
exists. -/
theorem validation_boundaries :
    (∀ (jd : JobData) (t : String), jd.title = some t → strLen (pyStrip t) = 1 →
      validate_job_data jd = false) ∧
    (∀ (jd : JobData) (t : String), jd.title = some t → 200 < strLen (pyStrip t) →
      validate_job_data jd = false) ∧
    (∀ (jd : JobData) (q : ℚ), jd.salary_min = some (.num q) → (q < 0 ∨ 1000000 < q) →
      validate_job_data jd = false) ∧
    (∀ (jd : JobData) (q : ℚ), jd.salary_max = some (.num q) → (q < 0 ∨ 1000000 < q) →
      validate_job_data jd = false) ∧
    (∀ (jd : JobData) (s : String), jd.salary_min = some (.nonNum s) →
      validate_job_data jd = false) ∧
    (∀ (jd : JobData) (s : String), jd.salary_max = some (.nonNum s) →
      validate_job_data jd = false) ∧
    (∀ (jd : JobData) (t : String), jd.title = some t → strLen (pyStrip t) = 2 →
      optStrTruthy jd.company_name = true →
      pyStrip (jd.company_name.getD "") ≠ "" →
      strLen (pyStrip (jd.company_name.getD "")) ≤ 200 →
      (optStrTruthy jd.location = true → strLen (pyStrip (jd.location.getD "")) ≤ 200) →
      (optStrTruthy jd.description = true → strLen (pyStrip (jd.description.getD "")) ≤ 10000) →
      salaryBad jd.salary_min = false →
      salaryBad jd.salary_max = false →
      urlBad jd.job_url = false →
      validate_job_data jd = true) := by
  refine ⟨?_, ?_, ?_, ?_, ?_, ?_, ?_⟩
  · intro jd t ht hlen
    cases hvb : validate_job_data jd with
    | false => rfl
    | true =>
      exfalso
      obtain ⟨_, _, h3, _⟩ := (validate_eq_true_iff jd).mp hvb
      rw [ht] at h3
      simp [hlen] at h3
  · intro jd t ht hlen
    cases hvb : validate_job_data jd with
    | false => rfl
    | true =>
      exfalso
      obtain ⟨_, _, h3, _⟩ := (validate_eq_true_iff jd).mp hvb
      rw [ht] at h3
      simp at h3
      omega
  · intro jd q hsal hrange
    cases hvb : validate_job_data jd with
    | false => rfl
    | true =>
      exfalso
      obtain ⟨_, _, _, _, _, _, h7, _⟩ := (validate_eq_true_iff jd).mp hvb
      rw [hsal] at h7
      simp [salaryBad] at h7
      rcases hrange with h | h
      · exact absurd h (by simpa using h7.1)
      · exact absurd h (by simpa using h7.2)
  · intro jd q hsal hrange
    cases hvb : validate_job_data jd with
    | false => rfl
    | true =>
      exfalso
      obtain ⟨_, _, _, _, _, _, _, h8, _⟩ := (validate_eq_true_iff jd).mp hvb
      rw [hsal] at h8
      simp [salaryBad] at h8
      rcases hrange with h | h
      · exact absurd h (by simpa using h8.1)
      · exact absurd h (by simpa using h8.2)
  · intro jd s hsal
    cases hvb : validate_job_data jd with
    | false => rfl
    | true =>
      exfalso
      obtain ⟨_, _, _, _, _, _, h7, _⟩ := (validate_eq_true_iff jd).mp hvb
      rw [hsal] at h7
      simp [salaryBad] at h7
  · intro jd s hsal
    cases hvb : validate_job_data jd with
    | false => rfl
    | true =>
      exfalso
      obtain ⟨_, _, _, _, _, _, _, h8, _⟩ := (validate_eq_true_iff jd).mp hvb
      rw [hsal] at h8
      simp [salaryBad] at h8
  · intro jd t ht hlen hct hc1 hc2 hl hd hs1 hs2 hu
    have htne : t ≠ "" := by
      intro h
      subst h
      simp [pyStrip, trimChars, strLen] at hlen
    have hpne : pyStrip t ≠ "" := by
      intro h
      rw [h] at hlen
      simp [strLen] at hlen
    refine validate_accepts jd ?_ ?_ ?_ ?_ hct hc1 hc2 hl hd hs1 hs2 hu
    · rw [ht]; simp [optStrTruthy, htne]
    · rw [ht]; simpa using hpne
    · rw [ht]; simp [Option.getD]; omega
    · rw [ht]; simp [Option.getD]; omega

/-- Witness for C3: the boundary records, concretely. -/
theorem validation_boundaries_witness :
    validate_job_data boundaryOk = true ∧
    validate_job_data boundaryHigh = false ∧
    validate_job_data boundaryShortTitle = false := by
  refine ⟨?_, ?_, ?_⟩
  · exact validation_boundaries.2.2.2.2.2.2 boundaryOk "AB" rfl (by decide)
      (by decide) (by decide) (by decide)
      (fun _ => by decide) (fun _ => by decide)
      (by decide) (by decide) (by decide)
  · exact validation_boundaries.2.2.1 boundaryHigh 1000001 rfl (Or.inr (by norm_num))
  · exact validation_boundaries.1 boundaryShortTitle "A" rfl (by decide)

/-- C10. The URL well-formedness check never reads the `url` field the
upsert keys on: `validate_job_data` is invariant under any change of
`url`, and a record with no `job_url` key passes validation whenever the
remaining checks do, however malformed its `url` text is. -/
theorem url_key_never_validated :
    (∀ (jd : JobData) (u : Option String),
       validate_job_data { jd with url := u } = validate_job_data jd) ∧
    (∀ jd : JobData, jd.job_url = none →
       optStrTruthy jd.title = true →
       pyStrip (jd.title.getD "") ≠ "" →
       2 ≤ strLen (pyStrip (jd.title.getD "")) →
       strLen (pyStrip (jd.title.getD "")) ≤ 200 →
       optStrTruthy jd.company_name = true →
       pyStrip (jd.company_name.getD "") ≠ "" →
       strLen (pyStrip (jd.company_name.getD "")) ≤ 200 →
       (optStrTruthy jd.location = true → strLen (pyStrip (jd.location.getD "")) ≤ 200) →
       (optStrTruthy jd.description = true → strLen (pyStrip (jd.description.getD "")) ≤ 10000) →
       salaryBad jd.salary_min = false →
       salaryBad jd.salary_max = false →
       validate_job_data jd = true) := by
  constructor
  · intro jd u
    rfl
  · intro jd hju htt ht1 ht2 ht3 hct hc1 hc2 hl hd hs1 hs2
    refine validate_accepts jd htt ht1 ht2 ht3 hct hc1 hc2 hl hd hs1 hs2 ?_
    rw [hju]
    rfl

/-- Witness for C10: a record with arbitrary malformed `url` text and no
`job_url` key validates. -/
theorem url_key_never_validated_witness :
    validate_job_data malformedUrlRec = true ∧
    _is_valid_url "not a url at all !!!" = false := by
  refine ⟨?_, by decide⟩
  exact url_key_never_validated.2 malformedUrlRec rfl (by decide) (by decide)
    (by decide) (by decide) (by decide) (by decide) (by decide)
    (fun _ => by decide) (fun _ => by decide)
    (by decide) (by decide)

/-- The floor of an integer is itself. -/
theorem qFloor_intCast (z : ℤ) : qFloor ((z : ℚ)) = z := by
  simp [qFloor, Rat.num_intCast, Rat.den_intCast, Int.fdiv_one]

/-- Half-even rounding of an integer is itself. -/
theorem roundHalfEven_intCast (z : ℤ) : roundHalfEven ((z : ℚ)) = z := by
  simp only [roundHalfEven, qFloor_intCast, sub_self]
  rw [if_pos (by norm_num)]

/-- `round(x, 2)` is the identity on integers. -/
theorem round2_intCast (z : ℤ) : round2 ((z : ℚ)) = (z : ℚ) := by
  unfold round2
  rw [show (z : ℚ) * 100 = ((z * 100 : ℤ) : ℚ) by push_cast; ring,
    roundHalfEven_intCast]
  push_cast
  field_simp

/-- C5. The salary median is the element at index `⌊n/2⌋` of the
ascending-sorted sample (rounded to two decimals, the identity on the
integral samples at issue) — for even n the upper-middle element, not the
average of the two middle ones; on the sample
`[50000, 70000, 90000, 120000]` the computed median is `90000`. -/
theorem salary_median_upper_middle :
    (∀ (rows : List JobRow) (st : SalaryStats),
       _calculate_salary_stats rows = .ok st →
       ∃ l : List ℚ, l.Perm (numericSalaries rows) ∧
         l.Sorted (· ≤ ·) ∧
         st.median_salary = round2 (l.getD ((numericSalaries rows).length / 2) 0)) ∧
    (∃ st, _calculate_salary_stats medianRows = .ok st ∧
       st.median_salary = 90000 ∧
       numericSalaries medianRows = [50000, 70000, 90000, 120000]) := by
  constructor
  · intro rows st h
    unfold _calculate_salary_stats at h
    split at h
    · simp at h
    · split at h
      · split at h
        · simp at h
        · next hh tt heq =>
          injection h with h
          subst h
          refine ⟨List.insertionSort (fun a b : ℚ => a ≤ b) (hh :: tt), ?_, ?_, ?_⟩
          · rw [heq]
            exact List.perm_insertionSort _ _
          · exact List.sorted_insertionSort _ _
          · rw [heq]
      · simp at h
  · have hns : numericSalaries medianRows = [(50000 : ℚ), 70000, 90000, 120000] := by
      decide
    have hsort :
        List.insertionSort (fun a b : ℚ => a ≤ b) [(50000 : ℚ), 70000, 90000, 120000]
          = [(50000 : ℚ), 70000, 90000, 120000] := by decide
    unfold _calculate_salary_stats
    rw [if_neg (by decide), if_pos (by decide)]
    rw [show numericSalaries medianRows = [(50000 : ℚ), 70000, 90000, 120000] from hns]
    refine ⟨_, rfl, ?_, hns⟩
    show round2
        ((List.insertionSort (fun a b : ℚ => a ≤ b)
          ((50000 : ℚ) :: [70000, 90000, 120000])).getD
            (((50000 : ℚ) :: [70000, 90000, 120000]).length / 2) 0) = 90000
    rw [show ((50000 : ℚ) :: [(70000 : ℚ), 90000, 120000]) = [(50000 : ℚ), 70000, 90000, 120000] from rfl,
      hsort]
    norm_num
    rw [show (90000 : ℚ) = ((90000 : ℤ) : ℚ) by norm_num, round2_intCast]

/-- Witness for C5: the theorem applied to the spec's §8 sample. -/
theorem salary_median_upper_middle_witness :
    ∃ st, _calculate_salary_stats medianRows = Except.ok st ∧
      ∃ l : List ℚ, l.Perm (numericSalaries medianRows) ∧ l.Sorted (· ≤ ·) ∧
        st.median_salary = round2 (l.getD ((numericSalaries medianRows).length / 2) 0) := by
  obtain ⟨st, hok, _, _⟩ := salary_median_upper_middle.2
  exact ⟨st, hok, salary_median_upper_middle.1 medianRows st hok⟩

/-- The inner vocabulary loop adds, per description, one to the count of
each occurrence of the skill in the traversed vocabulary segment. -/
theorem skillStep_foldl (desc skill : String) :
    ∀ (L : List String) (cs : String → Nat),
      (L.foldl (skillStep desc) cs) skill =
        cs skill +
          (if strIn (pyLower skill) (pyLower desc) then L.count skill else 0) := by
  intro L
  induction L with
  | nil => intro cs; simp
  | cons sk L ih =>
    intro cs
    rw [List.foldl_cons, ih]
    by_cases he : skill = sk
    · subst he
      rcases Bool.eq_false_or_eq_true (strIn (pyLower skill) (pyLower desc)) with hc | hc
      · have hb : bump cs skill skill = cs skill + 1 := by simp [bump]
        simp only [skillStep, hc, if_true, hb, List.count_cons]
        simp
        omega
      · simp [skillStep, hc, List.count_cons]
    · have hsk : ¬ (sk = skill) := fun hh => he hh.symm
      rcases Bool.eq_false_or_eq_true (strIn (pyLower sk) (pyLower desc)) with hc | hc <;>
        simp [skillStep, hc, bump, List.count_cons, he, hsk]

/-- The two nested loops count, for each skill, the number of traversed
descriptions containing it, scaled by the skill's multiplicity in the
vocabulary. -/
theorem skillCounter_foldl (skill : String) :
    ∀ (descs : List String) (cs : String → Nat),
      (descs.foldl (fun counts desc => tech_skills.foldl (skillStep desc) counts) cs) skill =
        cs skill + tech_skills.count skill *
          descs.countP (fun d => strIn (pyLower skill) (pyLower d)) := by
  intro descs
  induction descs with
  | nil => intro cs; simp
  | cons d t ih =>
    intro cs
    rw [List.foldl_cons, ih, skillStep_foldl, List.countP_cons]
    rcases Bool.eq_false_or_eq_true (strIn (pyLower skill) (pyLower d)) with hd | hd
    · simp only [hd]
      simp
      rw [Nat.mul_add, Nat.mul_one]
      omega
    · simp [hd]

/-- C6. Skill demand counts distinct records: each fetched description
adds exactly one to a vocabulary skill's count when it contains the skill
as a case-insensitive substring, however many times the skill occurs in
the text — the final count is the number of matching records. The
description mentioning "python" three times contributes one. -/
theorem skill_counts_distinct_records :
    (∀ (rows : List JobRow) (a : SkillsAnalysis) (skill : String),
       get_skills_analysis rows = .ok a → skill ∈ tech_skills →
       a.skill_counts skill =
         (activeDescriptions rows).countP
           (fun d => strIn (pyLower skill) (pyLower d))) ∧
    (get_skills_analysis [pythonThriceRow] = .ok pythonThriceAnalysis ∧
     pythonThriceAnalysis.skill_counts "python" = 1) := by
  constructor
  · intro rows a skill h hmem
    unfold get_skills_analysis at h
    split at h
    · simp at h
    · injection h with h
      subst h
      show skillCounter (activeDescriptions rows) skill = _
      unfold skillCounter
      rw [skillCounter_foldl]
      have hone : List.count skill tech_skills = 1 :=
        List.count_eq_one_of_mem (by decide) hmem
      rw [hone]
      simp
  · exact ⟨rfl, by decide⟩

/-- Witness for C6: the theorem applied to the "python"-thrice record. -/
theorem skill_counts_distinct_records_witness :
    pythonThriceAnalysis.skill_counts "python" =
      (activeDescriptions [pythonThriceRow]).countP
        (fun d => strIn (pyLower "python") (pyLower d)) :=
  skill_counts_distinct_records.1 [pythonThriceRow] pythonThriceAnalysis "python"
    rfl (by decide)

/-- Membership in a conditionally applied filter stage. -/
theorem mem_ite_filter (cond : Bool) (f : JobRow → Bool) (l : List JobRow) (r : JobRow) :
    r ∈ (if cond then l.filter f else l) ↔ r ∈ l ∧ (cond = true → f r = true) := by
  cases cond <;> simp [List.mem_filter]

/-- A guarded string filter clause, in terms of the supplied parameter. -/
theorem truthy_imp_str (o : Option String) (f : String → Bool) :
    ((optStrTruthy o = true) → f (o.getD "") = true) ↔
      (∀ t, o = some t → t ≠ "" → f t = true) := by
  cases o with
  | none => simp [optStrTruthy]
  | some s =>
    by_cases hs : s = "" <;> simp [optStrTruthy, hs]

/-- A guarded numeric filter clause, in terms of the supplied parameter. -/
theorem truthy_imp_q (o : Option ℚ) (f : ℚ → Bool) :
    ((pyTruthyQ o = true) → f (o.getD 0) = true) ↔
      (∀ x, o = some x → x ≠ 0 → f x = true) := by
  cases o with
  | none => simp [pyTruthyQ]
  | some x =>
    by_cases hx : x = 0 <;> simp [pyTruthyQ, hx]

/-- A guarded integer filter clause, in terms of the supplied parameter. -/
theorem truthy_imp_int (o : Option Int) (f : Int → Bool) :
    ((pyTruthyInt o = true) → f (o.getD 0) = true) ↔
      (∀ n, o = some n → n ≠ 0 → f n = true) := by
  cases o with
  | none => simp [pyTruthyInt]
  | some n =>
    by_cases hn : n = 0 <;> simp [pyTruthyInt, hn]

/-- C7. The search filter chain realizes the specified predicate
semantics: a row passes exactly when it is active and satisfies every
supplied (truthy) filter — case-insensitive substring on title, location,
company, platform and employment type; `salary_min ≥ X` or
`salary_max ≥ X` for `min_salary`; non-`NULL` `salary_min ≤ X` for
`max_salary`; description-or-title substring for keywords; and
`posted_date ≥ now − N·86400` for `days_ago`. Rows `search_jobs` returns
come from this filtered set, and on the two-record
`Python Developer`/`Java Developer` store, filtering by title "python"
and location "NYC" returns exactly the first record. -/
theorem search_filter_semantics :
    (∀ (p : SearchParams) (now : Int) (rows : List JobRow) (r : JobRow),
       r ∈ search_filtered p now rows ↔
         r ∈ rows ∧ r.is_active = true ∧
         (∀ t, p.title = some t → t ≠ "" → ilikeStr t r.title = true) ∧
         (∀ t, p.location = some t → t ≠ "" → ilikeOpt t r.location = true) ∧
         (∀ t, p.company = some t → t ≠ "" → ilikeStr t r.company_name = true) ∧
         (∀ t, p.platform = some t → t ≠ "" → ilikeStr t r.source_platform = true) ∧
         (∀ t, p.employment_type = some t → t ≠ "" → ilikeOpt t r.employment_type = true) ∧
         (∀ x, p.min_salary = some x → x ≠ 0 →
           (salGe r.salary_min x || salGe r.salary_max x) = true) ∧
         (∀ x, p.max_salary = some x → x ≠ 0 →
           (salLe r.salary_min x && r.salary_min.isSome) = true) ∧
         (∀ k, p.keywords = some k → k ≠ "" →
           (ilikeOpt k r.job_description || ilikeStr k r.title) = true) ∧
         (∀ n, p.days_ago = some n → n ≠ 0 →
           postedGe r.posted_date (now - n * 86400) = true)) ∧
    (∀ (p : SearchParams) (now : Int) (limit : Nat) (rows : List JobRow) (r : JobRow),
       r ∈ search_jobs p now limit rows → r ∈ search_filtered p now rows) ∧
    search_jobs { title := some "python", location := some "NYC" } 0 50
      [pythonNycRow, javaNycRow] = [pythonNycRow] := by
  refine ⟨?_, ?_, by decide⟩
  · intro p now rows r
    unfold search_filtered
    simp only [mem_ite_filter, List.mem_filter, and_assoc]
    exact and_congr Iff.rfl <| and_congr Iff.rfl <|
      and_congr (truthy_imp_str p.title (fun t => ilikeStr t r.title)) <|
      and_congr (truthy_imp_str p.location (fun t => ilikeOpt t r.location)) <|
      and_congr (truthy_imp_str p.company (fun t => ilikeStr t r.company_name)) <|
      and_congr (truthy_imp_str p.platform (fun t => ilikeStr t r.source_platform)) <|
      and_congr (truthy_imp_str p.employment_type (fun t => ilikeOpt t r.employment_type)) <|
      and_congr (truthy_imp_q p.min_salary
        (fun x => salGe r.salary_min x || salGe r.salary_max x)) <|
      and_congr (truthy_imp_q p.max_salary
        (fun x => salLe r.salary_min x && r.salary_min.isSome)) <|
      and_congr (truthy_imp_str p.keywords
        (fun k => ilikeOpt k r.job_description || ilikeStr k r.title))
        (truthy_imp_int p.days_ago
          (fun n => postedGe r.posted_date (now - n * 86400)))
  · intro p now limit rows r hr
    unfold search_jobs at hr
    have h1 := List.mem_of_mem_take hr
    exact (List.perm_insertionSort _ _).mem_iff.mp h1

/-- Witness for C7: membership instantiated on the concrete two-record
store. -/
theorem search_filter_semantics_witness :
    pythonNycRow ∈ search_filtered { title := some "python", location := some "NYC" } 0
      [pythonNycRow, javaNycRow] :=
  (search_filter_semantics.1 { title := some "python", location := some "NYC" } 0
    [pythonNycRow, javaNycRow] pythonNycRow).mpr
    (by
      refine ⟨by decide, by decide, ?_, ?_, ?_, ?_, ?_, ?_, ?_, ?_, ?_⟩
      · intro t ht hne; injection ht with ht; subst ht; decide
      · intro t ht hne; injection ht with ht; subst ht; decide
      · intro t ht hne; simp at ht
      · intro t ht hne; simp at ht
      · intro t ht hne; simp at ht
      · intro x hx hne; simp at hx
      · intro x hx hne; simp at hx
      · intro k hk hne; simp at hk
      · intro n hn hne; simp at hn)

/-- C8 counterexample: a failed search is indistinguishable from a
successful search with no matching records — both return the empty
list. -/
theorem query_error_counterexample :
    search_jobs_total (.error "database unavailable") {} 0 50
      = search_jobs_total (.ok []) {} 0 50 ∧
    search_jobs_total (.error "database unavailable") {} 0 50 = [] := ⟨rfl, rfl⟩

/-- C8 (amended). The analyzer's aggregate surfaces a failure as an
explicit error value (never a success payload), but `search_jobs` maps
any failure to `[]`, which is exactly the zero-result outcome; the
analyzer additionally reports the zero-data case through the same
error-shaped channel, distinguishable from a failure only by message
text. -/
theorem query_error_surfacing :
    (∀ (e : String) (now : Int),
       generate_summary_stats (.error e) now
         = .error ("Error generating statistics: " ++ e)) ∧
    (∀ (e : String) (now : Int) (st : SummaryStats),
       generate_summary_stats (.error e) now ≠ .ok st) ∧
    (∀ (now : Int),
       generate_summary_stats (.ok []) now
         = .error "No job data available. Run 'recruitiq scrape all' first.") ∧
    (∀ (e : String) (p : SearchParams) (now : Int) (limit : Nat),
       search_jobs_total (.error e) p now limit = []) ∧
    (∀ (p : SearchParams) (now : Int) (limit : Nat),
       search_jobs_total (.ok []) p now limit = []) := by
  refine ⟨fun e now => rfl, ?_, fun now => rfl, fun e p now limit => rfl, ?_⟩
  · intro e now st h
    simp [generate_summary_stats] at h
  · intro p now limit
    show (List.insertionSort _ (search_filtered p now [])).take limit = []
    have : search_filtered p now [] = [] := by
      unfold search_filtered
      simp
    rw [this]
    simp

/-- C9. A salary bound of zero is silently ignored: supplying
`min_salary = 0` (or `max_salary = 0`) yields the same result as omitting
the parameter, because the filter is applied only when the value is
truthy. -/
theorem zero_salary_bound_ignored :
    ∀ (p : SearchParams) (now : Int) (limit : Nat) (rows : List JobRow),
      search_jobs { p with min_salary := some 0 } now limit rows
        = search_jobs { p with min_salary := none } now limit rows ∧
      search_jobs { p with max_salary := some 0 } now limit rows
        = search_jobs { p with max_salary := none } now limit rows := by
  intro p now limit rows
  constructor
  · unfold search_jobs search_filtered
    norm_num [pyTruthyQ]
  · unfold search_jobs search_filtered
    norm_num [pyTruthyQ]

end RecruitIQ
